import Mathlib

/-!
Shallow embedding of `src/docling/utils/toon_export.py` (`save_as_toon`)
together with the external collaborators that the function relies on:
the optional `toon` codec module and the `DoclingDocument` model-dump
capability.  Filesystem state and the outcomes of the fallible
primitives (directory creation, file write) are made explicit in a
`World` record, and the function additionally produces a trace of the
observable operations it performed, in order.
-/

namespace ToonExport

/-- A filesystem path, as the list of its components from the root.
`Path(filename).parent` becomes `List.dropLast`. -/
abbrev FsPath := List String

/-- JSON-compatible values: the plain-mapping payload exchanged between the
document model (`model_dump(mode="json", ...)`) and the codec. -/
inductive Json where
  | null
  | bool (b : Bool)
  | num (n : Int)
  | str (s : String)
  | arr (xs : List Json)
  | obj (kvs : List (String × Json))

/-- Whether a JSON value is a mapping (a dict), as opposed to a sequence or
a scalar. -/
def Json.isMapping : Json → Bool
  | .obj _ => true
  | _ => false

/-- Python exception values that can cross `save_as_toon`'s boundary:
the `ImportError` it raises itself, and exceptions raised by the document
dump, the codec, or the filesystem primitives (identified by a code so that
verbatim propagation is expressible). -/
inductive PyException where
  | importError (msg : String)
  | validationError (code : Nat)
  | encodeError (code : Nat)
  | osError (code : Nat)
deriving DecidableEq

/-- The `mode` keyword of pydantic's `model_dump` (`mode="json"` in the
source requests JSON-primitive types only). -/
inductive DumpMode where
  | json
  | python
deriving DecidableEq

/-- The keyword arguments of `model_dump` that `save_as_toon` passes. -/
structure DumpOptions where
  mode : DumpMode
  exclude_none : Bool
  by_alias : Bool
deriving DecidableEq

/-- Modelled from the spec: the external document model (`DoclingDocument`
from `docling_core`, not part of this repository) is only required to expose
a conversion capability yielding a plain mapping from string keys to
JSON-compatible values, parameterised by the dump options; the conversion
may raise. -/
structure DoclingDocument where
  model_dump : DumpOptions → Except PyException (List (String × Json))

/-- Modelled from the spec: the external `toon` codec library (not part of
this repository) is a black box providing `encode(mapping) -> text` and
`decode(text) -> mapping`; either operation may raise (e.g. rejecting a
non-serializable value). -/
structure Codec where
  encode : Json → Except PyException String
  decode : String → Except PyException Json

/-- The mode of `open`: `"w"` truncates, `"a"` would append. -/
inductive FileMode where
  | truncate
  | append
deriving DecidableEq

/-- The text encoding passed to `open`. -/
inductive TextEncoding where
  | utf8
  | ascii
deriving DecidableEq

/-- The observable operations `save_as_toon` can perform, in the order it
performed them: the codec-availability check, the document-to-mapping
conversion (with the options it was asked with), the codec encode, the
parent-directory creation and the file write (with open mode and text
encoding). -/
inductive Event where
  | checkCodec
  | dump (opts : DumpOptions)
  | encode (payload : Json)
  | mkdir (dir : FsPath)
  | fileWrite (path : FsPath) (content : String) (mode : FileMode) (enc : TextEncoding)

/-- Association-list lookup of a file's content by path. -/
def lookupFile : List (FsPath × String) → FsPath → Option String
  | [], _ => none
  | (q, c) :: rest, p => if p = q then some c else lookupFile rest p

/-- Store `c` as the content of file `p`, replacing any previous content. -/
def setFile : List (FsPath × String) → FsPath → String → List (FsPath × String)
  | [], p, c => [(p, c)]
  | (q, c0) :: rest, p, c =>
      if p = q then (p, c) :: rest else (q, c0) :: setFile rest p c

/-- Semantics of a file open-and-write: `"w"` truncates (the new content
replaces any old one), `"a"` would append to the existing content. -/
def writeFile (files : List (FsPath × String)) (p : FsPath) (c : String) :
    FileMode → List (FsPath × String)
  | .truncate => setFile files p c
  | .append => setFile files p ((lookupFile files p).getD "" ++ c)

/-- The filesystem state together with outcome oracles for the fallible
filesystem primitives: `mkdirFault d` (resp. `writeFault p`) is the
exception `mkdir(parents=True, exist_ok=True)` on `d` (resp. opening and
writing `p`) raises, or `none` when the operation succeeds. -/
structure World where
  dirs : List FsPath
  files : List (FsPath × String)
  mkdirFault : FsPath → Option PyException
  writeFault : FsPath → Option PyException

/-- The outcome of a `save_as_toon` call: its result (`None` or a raised
exception), the world afterwards, and the trace of performed operations. -/
structure ExportResult where
  result : Except PyException Unit
  world : World
  trace : List Event

/-- The message of the `ImportError` raised when the `toon` module is
absent (written with `\x27` for the quote characters). -/
def toonInstallMsg : String :=
  "The \x27toon\x27 library is required for TOON export. " ++
  "Install it with: pip install toon"

/-- The `model_dump` arguments used by `save_as_toon`:
`mode="json", exclude_none=True, by_alias=True`. -/
def dumpArgs : DumpOptions :=
  { mode := DumpMode.json, exclude_none := true, by_alias := true }

/-- Shallow embedding of `save_as_toon` from
`src/docling/utils/toon_export.py`.  `toon` is the module binding produced
by the guarded import (`none` when the import failed).  Mirrors the source
line by line: import guard, `model_dump(mode="json", exclude_none=True,
by_alias=True)`, `toon.encode`, `output_path.parent.mkdir(parents=True,
exist_ok=True)`, then `open(output_path, "w", encoding="utf-8")` and the
write.  Logging is not modelled (it is not an observable effect of the
contract). -/
def save_as_toon (toon : Option Codec) (doc : DoclingDocument)
    (filename : FsPath) (w : World) : ExportResult :=
  match toon with
  | none =>
      { result := Except.error (PyException.importError toonInstallMsg),
        world := w, trace := [Event.checkCodec] }
  | some codec =>
      match doc.model_dump dumpArgs with
      | Except.error e =>
          { result := Except.error e, world := w,
            trace := [Event.checkCodec, Event.dump dumpArgs] }
      | Except.ok doc_dict =>
          match codec.encode (Json.obj doc_dict) with
          | Except.error e =>
              { result := Except.error e, world := w,
                trace := [Event.checkCodec, Event.dump dumpArgs,
                          Event.encode (Json.obj doc_dict)] }
          | Except.ok toon_content =>
              let output_path := filename
              let parentDir := output_path.dropLast
              match w.mkdirFault parentDir with
              | some e =>
                  { result := Except.error e, world := w,
                    trace := [Event.checkCodec, Event.dump dumpArgs,
                              Event.encode (Json.obj doc_dict),
                              Event.mkdir parentDir] }
              | none =>
                  let w1 : World := { w with dirs := parentDir.inits ++ w.dirs }
                  match w1.writeFault output_path with
                  | some e =>
                      { result := Except.error e, world := w1,
                        trace := [Event.checkCodec, Event.dump dumpArgs,
                                  Event.encode (Json.obj doc_dict),
                                  Event.mkdir parentDir,
                                  Event.fileWrite output_path toon_content
                                    FileMode.truncate TextEncoding.utf8] }
                  | none =>
                      { result := Except.ok (),
                        world := { w1 with
                          files := writeFile w1.files output_path toon_content
                                     FileMode.truncate },
                        trace := [Event.checkCodec, Event.dump dumpArgs,
                                  Event.encode (Json.obj doc_dict),
                                  Event.mkdir parentDir,
                                  Event.fileWrite output_path toon_content
                                    FileMode.truncate TextEncoding.utf8] }

/-- A sample plain mapping with one field, used to instantiate theorems. -/
def sampleDict : List (String × Json) :=
  [("schema_name", Json.str "DoclingDocument")]

/-- A second sample mapping, distinct from `sampleDict`. -/
def otherDict : List (String × Json) :=
  [("schema_name", Json.str "Other")]

/-- A sample document whose conversion capability always succeeds. -/
def sampleDoc : DoclingDocument := ⟨fun _ => Except.ok sampleDict⟩

/-- A second sample document, dumping to `otherDict`. -/
def otherDoc : DoclingDocument := ⟨fun _ => Except.ok otherDict⟩

/-- A document whose conversion capability raises. -/
def failDoc : DoclingDocument :=
  ⟨fun _ => Except.error (PyException.validationError 3)⟩

/-- Encode side of a concrete codec: defined on the two sample mappings,
rejecting every other value (the spec allows the codec to reject input). -/
def sampleEncodeFn : Json → Except PyException String := fun j =>
  match j with
  | Json.obj [("schema_name", Json.str "DoclingDocument")] => Except.ok "X"
  | Json.obj [("schema_name", Json.str "Other")] => Except.ok "Y"
  | _ => Except.error (PyException.encodeError 1)

/-- Decode side of the concrete codec, inverting `sampleEncodeFn`. -/
def sampleDecodeFn : String → Except PyException Json := fun s =>
  if s = "X" then Except.ok (Json.obj [("schema_name", Json.str "DoclingDocument")])
  else if s = "Y" then Except.ok (Json.obj [("schema_name", Json.str "Other")])
  else Except.error (PyException.encodeError 2)

/-- A concrete codec satisfying the spec's round-trip contract. -/
def sampleCodec : Codec := ⟨sampleEncodeFn, sampleDecodeFn⟩

/-- A sample destination path; its parent directory is `["out"]`. -/
def samplePath : FsPath := ["out", "doc.toon"]

/-- An initially empty filesystem whose primitives all succeed. -/
def cleanWorld : World := ⟨[], [], fun _ => none, fun _ => none⟩

/-- A world where opening the sample destination for writing raises
a permission error. -/
def badWriteWorld : World :=
  ⟨[], [], fun _ => none,
   fun q => if q = samplePath then some (PyException.osError 13) else none⟩

/-- Number of file-write attempts in a trace. -/
def writeCount (tr : List Event) : Nat :=
  tr.countP fun e => match e with
    | Event.fileWrite _ _ _ _ => true
    | _ => false

/-- Number of directory-creation attempts in a trace. -/
def mkdirCount (tr : List Event) : Nat :=
  tr.countP fun e => match e with
    | Event.mkdir _ => true
    | _ => false

/-! Helper lemmas about the filesystem model and the sample codec. -/

theorem lookupFile_setFile_self (fs : List (FsPath × String)) (p : FsPath)
    (c : String) : lookupFile (setFile fs p c) p = some c := by
  induction fs with
  | nil => simp [setFile, lookupFile]
  | cons hd tl ih =>
      obtain ⟨q, c0⟩ := hd
      by_cases h : p = q
      · simp [setFile, h, lookupFile]
      · simp [setFile, h, lookupFile, ih]

theorem lookupFile_setFile_ne (fs : List (FsPath × String)) (p : FsPath)
    (c : String) (q : FsPath) (h : q ≠ p) :
    lookupFile (setFile fs p c) q = lookupFile fs q := by
  induction fs with
  | nil => simp [setFile, lookupFile, h]
  | cons hd tl ih =>
      obtain ⟨r, c0⟩ := hd
      by_cases h2 : p = r
      · subst h2; simp [setFile, lookupFile, h]
      · simp only [setFile, if_neg h2, lookupFile, ih]

theorem sampleCodec_roundtrip : ∀ j t,
    sampleCodec.encode j = Except.ok t → sampleCodec.decode t = Except.ok j := by
  intro j t h
  show sampleDecodeFn t = Except.ok j
  replace h : sampleEncodeFn j = Except.ok t := h
  unfold sampleEncodeFn at h
  split at h
  · cases h; rfl
  · cases h; rfl
  · cases h

theorem sampleCodec_encode_ne_empty : ∀ kvs t, kvs ≠ [] →
    sampleCodec.encode (Json.obj kvs) = Except.ok t → t ≠ "" := by
  intro kvs t _ h
  replace h : sampleEncodeFn (Json.obj kvs) = Except.ok t := h
  unfold sampleEncodeFn at h
  split at h
  · cases h; simp
  · cases h; simp
  · cases h

/-! Theorems settling the claims. -/

/-- C1: when the codec dependency is unavailable, `save_as_toon` fails with
the `ImportError` carrying the message that names the missing dependency and
how to obtain it; the failure happens before any mapping conversion or
filesystem access (the trace holds only the availability check), the world
is unchanged, and the destination file does not exist afterward when it did
not exist before. -/
theorem c1_missing_codec_fails_first_and_touches_nothing
    (doc : DoclingDocument) (p : FsPath) (w : World)
    (hne : lookupFile w.files p = none) :
    (save_as_toon none doc p w).result
        = Except.error (PyException.importError toonInstallMsg) ∧
    (save_as_toon none doc p w).world = w ∧
    (save_as_toon none doc p w).trace = [Event.checkCodec] ∧
    lookupFile (save_as_toon none doc p w).world.files p = none ∧
    (∃ a b, toonInstallMsg = a ++ "toon" ++ b) ∧
    (∃ a b, toonInstallMsg = a ++ "pip install toon" ++ b) := by
  refine ⟨rfl, rfl, rfl, hne, ⟨"The \x27",
    "\x27 library is required for TOON export. Install it with: pip install toon",
    rfl⟩,
    ⟨"The \x27toon\x27 library is required for TOON export. Install it with: ",
    "", rfl⟩⟩

theorem c1_missing_codec_witness :
    (save_as_toon none sampleDoc samplePath cleanWorld).result
      = Except.error (PyException.importError toonInstallMsg) :=
  (c1_missing_codec_fails_first_and_touches_nothing sampleDoc samplePath
    cleanWorld rfl).1

/-- C2: a successful export performs exactly these steps in this order:
codec-availability check, document-to-mapping conversion, codec encode,
parent-directory creation, file write. -/
theorem c2_success_steps_in_order
    (codec : Codec) (doc : DoclingDocument) (p : FsPath) (w : World)
    (dict : List (String × Json)) (s : String)
    (hdump : doc.model_dump dumpArgs = Except.ok dict)
    (henc : codec.encode (Json.obj dict) = Except.ok s)
    (hmk : w.mkdirFault p.dropLast = none)
    (hwr : w.writeFault p = none) :
    (save_as_toon (some codec) doc p w).result = Except.ok () ∧
    (save_as_toon (some codec) doc p w).trace =
      [Event.checkCodec, Event.dump dumpArgs, Event.encode (Json.obj dict),
       Event.mkdir p.dropLast,
       Event.fileWrite p s FileMode.truncate TextEncoding.utf8] := by
  simp [save_as_toon, hdump, henc, hmk, hwr]

theorem c2_success_steps_witness :
    (save_as_toon (some sampleCodec) sampleDoc samplePath cleanWorld).result
      = Except.ok () :=
  (c2_success_steps_in_order sampleCodec sampleDoc samplePath cleanWorld
    sampleDict "X" rfl rfl rfl rfl).1

/-- C3: every document-to-mapping conversion performed by `save_as_toon` is
requested with exactly `mode="json"` (JSON-primitive types only),
`exclude_none=True` (omit fields whose value is absent) and `by_alias=True`
(externally-facing field names). -/
theorem c3_dump_options_exact
    (toon : Option Codec) (doc : DoclingDocument) (p : FsPath) (w : World)
    (o : DumpOptions)
    (h : Event.dump o ∈ (save_as_toon toon doc p w).trace) :
    o = { mode := DumpMode.json, exclude_none := true, by_alias := true } := by
  cases toon with
  | none => simp [save_as_toon] at h
  | some codec =>
      cases hd : doc.model_dump dumpArgs with
      | error e => simp [save_as_toon, hd] at h; exact h.trans rfl
      | ok dict =>
          cases he : codec.encode (Json.obj dict) with
          | error e => simp [save_as_toon, hd, he] at h; exact h.trans rfl
          | ok s =>
              cases hm : w.mkdirFault p.dropLast with
              | some e => simp [save_as_toon, hd, he, hm] at h; exact h.trans rfl
              | none =>
                  cases hw : w.writeFault p with
                  | some e =>
                      simp [save_as_toon, hd, he, hm, hw] at h
                      exact h.trans rfl
                  | none =>
                      simp [save_as_toon, hd, he, hm, hw] at h
                      exact h.trans rfl

theorem c3_dump_options_witness :
    dumpArgs
      = { mode := DumpMode.json, exclude_none := true, by_alias := true } :=
  c3_dump_options_exact (some sampleCodec) sampleDoc samplePath cleanWorld
    dumpArgs (List.Mem.tail _ (List.Mem.head _))

/-- C4: the file write opens with truncating mode and UTF-8 encoding, so
exporting twice to the same path leaves a file containing exactly the
second export's content (no append). -/
theorem c4_write_truncates_with_utf8
    (codec : Codec) (doc1 doc2 : DoclingDocument) (p : FsPath) (w : World)
    (dict1 dict2 : List (String × Json)) (s1 s2 : String)
    (hd1 : doc1.model_dump dumpArgs = Except.ok dict1)
    (he1 : codec.encode (Json.obj dict1) = Except.ok s1)
    (hd2 : doc2.model_dump dumpArgs = Except.ok dict2)
    (he2 : codec.encode (Json.obj dict2) = Except.ok s2)
    (hmk : w.mkdirFault p.dropLast = none)
    (hwr : w.writeFault p = none) :
    lookupFile (save_as_toon (some codec) doc2 p
        (save_as_toon (some codec) doc1 p w).world).world.files p
      = some s2 ∧
    (∀ q c m e,
        Event.fileWrite q c m e ∈ (save_as_toon (some codec) doc1 p w).trace
          ++ (save_as_toon (some codec) doc2 p
                (save_as_toon (some codec) doc1 p w).world).trace →
        m = FileMode.truncate ∧ e = TextEncoding.utf8) := by
  constructor
  · simp [save_as_toon, hd1, he1, hd2, he2, hmk, hwr, writeFile,
      lookupFile_setFile_self]
  · intro q c m e hmem
    simp [save_as_toon, hd1, he1, hd2, he2, hmk, hwr] at hmem
    rcases hmem with ⟨_, _, hm2, he3⟩ | ⟨_, _, hm2, he3⟩ <;> exact ⟨hm2, he3⟩

theorem c4_write_truncates_witness :
    lookupFile (save_as_toon (some sampleCodec) otherDoc samplePath
        (save_as_toon (some sampleCodec) sampleDoc samplePath
          cleanWorld).world).world.files samplePath = some "Y" :=
  (c4_write_truncates_with_utf8 sampleCodec sampleDoc otherDoc samplePath
    cleanWorld sampleDict otherDict "X" "Y" rfl rfl rfl rfl rfl rfl).1

/-- C5: a successful export creates every missing parent directory of the
destination (every prefix of the parent path is a directory afterwards);
no precondition constrains which directories already existed, so
pre-existing parents are not an error. -/
theorem c5_parent_dirs_created
    (codec : Codec) (doc : DoclingDocument) (p : FsPath) (w : World)
    (dict : List (String × Json)) (s : String)
    (hdump : doc.model_dump dumpArgs = Except.ok dict)
    (henc : codec.encode (Json.obj dict) = Except.ok s)
    (hmk : w.mkdirFault p.dropLast = none)
    (hwr : w.writeFault p = none) :
    (save_as_toon (some codec) doc p w).result = Except.ok () ∧
    ∀ q, q ∈ p.dropLast.inits →
      q ∈ (save_as_toon (some codec) doc p w).world.dirs := by
  refine ⟨by simp [save_as_toon, hdump, henc, hmk, hwr], ?_⟩
  intro q hq
  simp only [save_as_toon, hdump, henc, hmk, hwr]
  simpa using Or.inl hq

theorem c5_parent_dirs_witness :
    ["out"] ∈ (save_as_toon (some sampleCodec) sampleDoc samplePath
      cleanWorld).world.dirs :=
  (c5_parent_dirs_created sampleCodec sampleDoc samplePath cleanWorld
    sampleDict "X" rfl rfl rfl rfl).2 ["out"] (by decide)

/-- C6: for a codec that encodes nonempty mappings to nonempty text, a
successful export of a document with at least one non-absent field returns
no value (`.ok ()`) and leaves a file at the destination whose content is
nonempty (size greater than zero). -/
theorem c6_success_nonempty_file
    (codec : Codec) (doc : DoclingDocument) (p : FsPath) (w : World)
    (dict : List (String × Json)) (s : String)
    (hdump : doc.model_dump dumpArgs = Except.ok dict)
    (hfield : dict ≠ [])
    (henc : codec.encode (Json.obj dict) = Except.ok s)
    (hcodec : ∀ kvs t, kvs ≠ [] →
        codec.encode (Json.obj kvs) = Except.ok t → t ≠ "")
    (hmk : w.mkdirFault p.dropLast = none)
    (hwr : w.writeFault p = none) :
    (save_as_toon (some codec) doc p w).result = Except.ok () ∧
    lookupFile (save_as_toon (some codec) doc p w).world.files p = some s ∧
    s ≠ "" := by
  refine ⟨by simp [save_as_toon, hdump, henc, hmk, hwr], ?_,
    hcodec dict s hfield henc⟩
  simp [save_as_toon, hdump, henc, hmk, hwr, writeFile,
    lookupFile_setFile_self]

theorem c6_success_nonempty_witness :
    lookupFile (save_as_toon (some sampleCodec) sampleDoc samplePath
        cleanWorld).world.files samplePath = some "X" ∧ ("X" : String) ≠ "" :=
  ((c6_success_nonempty_file sampleCodec sampleDoc samplePath cleanWorld
    sampleDict "X" rfl (by simp [sampleDict]) rfl
    sampleCodec_encode_ne_empty rfl rfl).2)

/-- C7: for any codec satisfying the spec's round-trip contract, the text a
successful export writes to the destination decodes back to a mapping equal
to the one obtained from the document, and that decoded top-level value is
a mapping (not a sequence or scalar). -/
theorem c7_decode_encode_roundtrip
    (codec : Codec) (doc : DoclingDocument) (p : FsPath) (w : World)
    (dict : List (String × Json)) (s : String)
    (hrt : ∀ j t, codec.encode j = Except.ok t →
        codec.decode t = Except.ok j)
    (hdump : doc.model_dump dumpArgs = Except.ok dict)
    (henc : codec.encode (Json.obj dict) = Except.ok s)
    (hmk : w.mkdirFault p.dropLast = none)
    (hwr : w.writeFault p = none) :
    lookupFile (save_as_toon (some codec) doc p w).world.files p = some s ∧
    codec.decode s = Except.ok (Json.obj dict) ∧
    (Json.obj dict).isMapping = true := by
  refine ⟨?_, hrt _ _ henc, rfl⟩
  simp [save_as_toon, hdump, henc, hmk, hwr, writeFile,
    lookupFile_setFile_self]

theorem c7_roundtrip_witness :
    sampleCodec.decode "X" = Except.ok (Json.obj sampleDict) :=
  (c7_decode_encode_roundtrip sampleCodec sampleDoc samplePath cleanWorld
    sampleDict "X" sampleCodec_roundtrip rfl rfl rfl rfl).2.1

theorem trace_counts_le_one (toon : Option Codec) (doc : DoclingDocument)
    (p : FsPath) (w : World) :
    writeCount (save_as_toon toon doc p w).trace ≤ 1 ∧
    mkdirCount (save_as_toon toon doc p w).trace ≤ 1 := by
  cases toon with
  | none => simp [save_as_toon, writeCount, mkdirCount]
  | some codec =>
      cases hd : doc.model_dump dumpArgs with
      | error e => simp [save_as_toon, hd, writeCount, mkdirCount]
      | ok dict =>
          cases he : codec.encode (Json.obj dict) with
          | error e => simp [save_as_toon, hd, he, writeCount, mkdirCount]
          | ok s =>
              cases hm : w.mkdirFault p.dropLast with
              | some e =>
                  simp [save_as_toon, hd, he, hm, writeCount, mkdirCount]
              | none =>
                  cases hw : w.writeFault p with
                  | some e =>
                      simp [save_as_toon, hd, he, hm, hw, writeCount,
                        mkdirCount]
                  | none =>
                      simp [save_as_toon, hd, he, hm, hw, writeCount,
                        mkdirCount]

theorem save_world_cases (toon : Option Codec) (doc : DoclingDocument)
    (p : FsPath) (w : World) :
    (save_as_toon toon doc p w).world = w ∨
    (save_as_toon toon doc p w).world
      = { w with dirs := p.dropLast.inits ++ w.dirs } ∨
    ∃ c, (save_as_toon toon doc p w).world
      = { w with dirs := p.dropLast.inits ++ w.dirs,
                 files := setFile w.files p c } := by
  cases toon with
  | none => exact Or.inl rfl
  | some codec =>
      cases hd : doc.model_dump dumpArgs with
      | error e => left; simp [save_as_toon, hd]
      | ok dict =>
          cases he : codec.encode (Json.obj dict) with
          | error e => left; simp [save_as_toon, hd, he]
          | ok s =>
              cases hm : w.mkdirFault p.dropLast with
              | some e => left; simp [save_as_toon, hd, he, hm]
              | none =>
                  cases hw : w.writeFault p with
                  | some e =>
                      right; left; simp [save_as_toon, hd, he, hm, hw]
                  | none =>
                      right; right
                      exact ⟨s, by simp [save_as_toon, hd, he, hm, hw,
                        writeFile]⟩

/-- C8: every failure of the conversion, the codec encode, the directory
creation or the file write aborts the call and is propagated to the caller
as exactly the exception the failing primitive produced (no translation,
no local recovery), and each directory creation and file write is attempted
at most once (no retry). -/
theorem c8_failures_propagate_verbatim
    (codec : Codec) (doc : DoclingDocument) (p : FsPath) (w : World) :
    (∀ ex, doc.model_dump dumpArgs = Except.error ex →
        (save_as_toon (some codec) doc p w).result = Except.error ex) ∧
    (∀ dict ex, doc.model_dump dumpArgs = Except.ok dict →
        codec.encode (Json.obj dict) = Except.error ex →
        (save_as_toon (some codec) doc p w).result = Except.error ex) ∧
    (∀ dict s ex, doc.model_dump dumpArgs = Except.ok dict →
        codec.encode (Json.obj dict) = Except.ok s →
        w.mkdirFault p.dropLast = some ex →
        (save_as_toon (some codec) doc p w).result = Except.error ex) ∧
    (∀ dict s ex, doc.model_dump dumpArgs = Except.ok dict →
        codec.encode (Json.obj dict) = Except.ok s →
        w.mkdirFault p.dropLast = none →
        w.writeFault p = some ex →
        (save_as_toon (some codec) doc p w).result = Except.error ex) ∧
    writeCount (save_as_toon (some codec) doc p w).trace ≤ 1 ∧
    mkdirCount (save_as_toon (some codec) doc p w).trace ≤ 1 := by
  refine ⟨?_, ?_, ?_, ?_, (trace_counts_le_one (some codec) doc p w).1,
    (trace_counts_le_one (some codec) doc p w).2⟩
  · intro ex h; simp [save_as_toon, h]
  · intro dict ex h1 h2; simp [save_as_toon, h1, h2]
  · intro dict s ex h1 h2 h3; simp [save_as_toon, h1, h2, h3]
  · intro dict s ex h1 h2 h3 h4; simp [save_as_toon, h1, h2, h3, h4]

theorem c8_failures_witness :
    (save_as_toon (some sampleCodec) sampleDoc samplePath
        badWriteWorld).result = Except.error (PyException.osError 13) :=
  (c8_failures_propagate_verbatim sampleCodec sampleDoc samplePath
    badWriteWorld).2.2.2.1 sampleDict "X" (PyException.osError 13)
    rfl rfl rfl rfl

/-- C9: frame — a `save_as_toon` call changes no file other than the one at
the destination path, adds no directories beyond the parent chain of the
destination, leaves the filesystem's behaviour oracles untouched, and
attempts at most one file write; the input document is a pure value of the
embedding and is never mutated. -/
theorem c9_frame_effects
    (toon : Option Codec) (doc : DoclingDocument) (p : FsPath) (w : World) :
    (∀ q, q ≠ p →
        lookupFile (save_as_toon toon doc p w).world.files q
          = lookupFile w.files q) ∧
    (∀ d, d ∈ (save_as_toon toon doc p w).world.dirs →
        d ∈ w.dirs ∨ d ∈ p.dropLast.inits) ∧
    (save_as_toon toon doc p w).world.mkdirFault = w.mkdirFault ∧
    (save_as_toon toon doc p w).world.writeFault = w.writeFault ∧
    writeCount (save_as_toon toon doc p w).trace ≤ 1 := by
  rcases save_world_cases toon doc p w with h | h | ⟨c, h⟩ <;> rw [h]
  · exact ⟨fun q _ => rfl, fun d hd => Or.inl hd, rfl, rfl,
      (trace_counts_le_one toon doc p w).1⟩
  · refine ⟨fun q _ => rfl, fun d hd => ?_, rfl, rfl,
      (trace_counts_le_one toon doc p w).1⟩
    rcases List.mem_append.1 hd with h2 | h2
    · exact Or.inr h2
    · exact Or.inl h2
  · refine ⟨fun q hq => lookupFile_setFile_ne w.files p c q hq,
      fun d hd => ?_, rfl, rfl, (trace_counts_le_one toon doc p w).1⟩
    rcases List.mem_append.1 hd with h2 | h2
    · exact Or.inr h2
    · exact Or.inl h2

theorem c9_frame_witness :
    lookupFile (save_as_toon (some sampleCodec) sampleDoc samplePath
        cleanWorld).world.files ["elsewhere"]
      = lookupFile cleanWorld.files ["elsewhere"] :=
  (c9_frame_effects (some sampleCodec) sampleDoc samplePath cleanWorld).1
    ["elsewhere"] (by decide)

/-- C10: when the document-to-mapping conversion or the codec encode
raises, the world (directories and files alike) is left exactly as it was
and the trace stops before any directory creation or file open, because
encoding completes before any filesystem operation. -/
theorem c10_fs_untouched_on_early_failure
    (codec : Codec) (doc : DoclingDocument) (p : FsPath) (w : World) :
    (∀ ex, doc.model_dump dumpArgs = Except.error ex →
        save_as_toon (some codec) doc p w =
          { result := Except.error ex, world := w,
            trace := [Event.checkCodec, Event.dump dumpArgs] }) ∧
    (∀ dict ex, doc.model_dump dumpArgs = Except.ok dict →
        codec.encode (Json.obj dict) = Except.error ex →
        save_as_toon (some codec) doc p w =
          { result := Except.error ex, world := w,
            trace := [Event.checkCodec, Event.dump dumpArgs,
                      Event.encode (Json.obj dict)] }) := by
  constructor
  · intro ex h; simp [save_as_toon, h]
  · intro dict ex h1 h2; simp [save_as_toon, h1, h2]

theorem c10_early_failure_witness :
    save_as_toon (some sampleCodec) failDoc samplePath cleanWorld =
      { result := Except.error (PyException.validationError 3),
        world := cleanWorld,
        trace := [Event.checkCodec, Event.dump dumpArgs] } :=
  (c10_fs_untouched_on_early_failure sampleCodec failDoc samplePath
    cleanWorld).1 (PyException.validationError 3) rfl

end ToonExport
